import Mathlib

/-!
Verification of `src/adrd/nn/resnet3d.py`, a 3D convolutional residual
network assembler (simplified from torchvision's `r3d_18`).

The file is declarative architecture assembly: it wires pre-built layer
primitives (3D convolution, 3D batch normalization, ReLU, adaptive average
pooling) into residual blocks, stages and a full network, plus a weight
initialization policy.  We embed the module trees the Python constructors
build as an inductive type `NNModule`, thread the mutated `self.inplanes`
counter explicitly, model Python's `//` (which raises `ZeroDivisionError`
on divisor 0) with an `Option`-valued division, and model the runtime
forward pass abstractly: `NNModule.run` is parametrized by an interpretation
of the layer primitives, and `shapeSem` instantiates it with PyTorch's
shape rules, which is what the shape-level claims are about.

Numeric convolution weights (He-normal random draws) are not modelled: no
claim is about their values.  Batch-normalization parameters are modelled
by the constant value every entry of the scale / shift vector is set to,
which is exact because the code only ever writes them through
`nn.init.constant_`.
-/

/-- A triple of sizes along the (depth, height, width) axes, the form in
which PyTorch expands 3D kernel sizes, strides and paddings. -/
structure Dim3 where
  d : Nat
  h : Nat
  w : Nat
deriving DecidableEq

/-- The shape of a 5-dimensional tensor (batch, channels, depth, height,
width), the input format of every module in this file. -/
structure Shape where
  n : Nat
  c : Nat
  d : Nat
  h : Nat
  w : Nat
deriving DecidableEq

/-- The module trees built by `resnet3d.py`.  `pyNone` embeds Python's
`None` (the absent downsample path); `seqNil` / `seqCons` embed
`nn.Sequential` containers; `conv3d` records the constructor arguments of
an `nn.Conv3d` (numeric weights are not modelled); `batchNorm3d` records
an `nn.BatchNorm3d` together with the constant value of every entry of its
scale (`weight`) and shift (`bias`) vectors; `basicBlock` and
`bottleneckBlock` hold the sub-modules their `__init__` stores
(`conv1`, `conv2`, (`conv3`,) `downsample`). -/
inductive NNModule where
  | pyNone : NNModule
  | conv3d (inChannels outChannels : Nat) (kernel stride padding : Dim3)
      (hasBias : Bool) : NNModule
  | batchNorm3d (numFeatures : Nat) (weight bias : Int) : NNModule
  | relu : NNModule
  | adaptiveAvgPool3d (outSize : Dim3) : NNModule
  | seqNil : NNModule
  | seqCons (m rest : NNModule) : NNModule
  | basicBlock (conv1 conv2 downsample : NNModule) : NNModule
  | bottleneckBlock (conv1 conv2 conv3 downsample : NNModule) : NNModule
deriving DecidableEq

/-- Build the embedding of `nn.Sequential(m1, ..., mk)` from a list. -/
def seqOf : List NNModule → NNModule
  | [] => NNModule.seqNil
  | m :: ms => NNModule.seqCons m (seqOf ms)

/-- Python's floor division on non-negative integers: `a // b`, raising
`ZeroDivisionError` (modelled as `none`) when `b = 0`. -/
def pyDiv (a b : Nat) : Option Nat :=
  if b = 0 then none else some (a / b)

/-- The mid-plane computation shared by `BasicBlock.__init__` (line 54) and
`Bottleneck.__init__` (line 90):
`midplanes = (inplanes * planes * 3 * 3 * 3) // (inplanes * 3 * 3 + 3 * planes)`. -/
def midplanesD (inplanes planes : Nat) : Option Nat :=
  pyDiv (inplanes * planes * 3 * 3 * 3) (inplanes * 3 * 3 + 3 * planes)

/-- A `conv_builder` strategy argument (the `Conv3DSimple` class in the
source): `make in_planes out_planes midplanes stride` builds the
convolution module, and `get_downsample_stride` maps a requested stride to
the stride tuple of the matching downsample convolution. -/
structure ConvBuilder where
  make : Nat → Nat → Nat → Nat → NNModule
  get_downsample_stride : Nat → Dim3

/-- The `Conv3DSimple` builder: a 3×3×3 convolution with the requested
stride, the default padding 1 of its `__init__`, and `bias=False`;
`get_downsample_stride(stride) = (stride, stride, stride)`. -/
def Conv3DSimple : ConvBuilder :=
  ⟨fun in_planes out_planes _midplanes stride =>
      NNModule.conv3d in_planes out_planes ⟨3, 3, 3⟩ ⟨stride, stride, stride⟩
        ⟨1, 1, 1⟩ false,
   fun stride => ⟨stride, stride, stride⟩⟩

/-- The class constant `BasicBlock.expansion = 1`. -/
def BasicBlock.expansion : Nat := 1

/-- The class constant `Bottleneck.expansion = 4`. -/
def Bottleneck.expansion : Nat := 4

/-- `BasicBlock.__init__`: computes `midplanes` (a division that can raise
`ZeroDivisionError`, hence `Option`), then stores
`conv1 = Sequential(conv_builder(inplanes, planes, midplanes, stride), BatchNorm3d(planes), ReLU)` and
`conv2 = Sequential(conv_builder(planes, planes, midplanes), BatchNorm3d(planes))`
(the second builder call leaves `stride` at its default 1), plus the given
downsample.  A fresh `nn.BatchNorm3d` has scale 1 and shift 0. -/
def BasicBlock.make (inplanes planes : Nat) (conv_builder : ConvBuilder)
    (stride : Nat) (downsample : NNModule) : Option NNModule :=
  (midplanesD inplanes planes).map fun midplanes =>
    NNModule.basicBlock
      (seqOf [conv_builder.make inplanes planes midplanes stride,
              NNModule.batchNorm3d planes 1 0, NNModule.relu])
      (seqOf [conv_builder.make planes planes midplanes 1,
              NNModule.batchNorm3d planes 1 0])
      downsample

/-- `Bottleneck.__init__`: `conv1` is a 1×1×1 channel-reducing convolution
(`nn.Conv3d(inplanes, planes, kernel_size=1, bias=False)`, default stride 1
and padding 0) → BatchNorm → ReLU; `conv2` is the builder convolution at
the requested stride → BatchNorm → ReLU; `conv3` is a 1×1×1 convolution
expanding to `planes * expansion` → BatchNorm, with no activation. -/
def Bottleneck.make (inplanes planes : Nat) (conv_builder : ConvBuilder)
    (stride : Nat) (downsample : NNModule) : Option NNModule :=
  (midplanesD inplanes planes).map fun midplanes =>
    NNModule.bottleneckBlock
      (seqOf [NNModule.conv3d inplanes planes ⟨1, 1, 1⟩ ⟨1, 1, 1⟩ ⟨0, 0, 0⟩ false,
              NNModule.batchNorm3d planes 1 0, NNModule.relu])
      (seqOf [conv_builder.make planes planes midplanes stride,
              NNModule.batchNorm3d planes 1 0, NNModule.relu])
      (seqOf [NNModule.conv3d planes (planes * Bottleneck.expansion) ⟨1, 1, 1⟩
                ⟨1, 1, 1⟩ ⟨0, 0, 0⟩ false,
              NNModule.batchNorm3d (planes * Bottleneck.expansion) 1 0])
      downsample

/-- The `block` strategy argument of `VideoResNet.__init__`: the source
passes the class itself (`BasicBlock` or `Bottleneck`), from which the
assembler reads `expansion` and which it calls to build blocks. -/
inductive BlockKind where
  | basic : BlockKind
  | bottleneck : BlockKind
deriving DecidableEq

/-- `block.expansion` of the two block classes. -/
def BlockKind.expansion : BlockKind → Nat
  | BlockKind.basic => BasicBlock.expansion
  | BlockKind.bottleneck => Bottleneck.expansion

/-- Calling the block class: `block(inplanes, planes, conv_builder, stride,
downsample)`. -/
def BlockKind.construct : BlockKind → Nat → Nat → ConvBuilder → Nat → NNModule → Option NNModule
  | BlockKind.basic => BasicBlock.make
  | BlockKind.bottleneck => Bottleneck.make

/-- `BasicStem.__init__`: `Sequential(Conv3d(1, 64, kernel_size=(7,7,7),
stride=(2,2,2), padding=(3,3,3), bias=False), BatchNorm3d(64), ReLU)`. -/
def BasicStem.make : NNModule :=
  seqOf [NNModule.conv3d 1 64 ⟨7, 7, 7⟩ ⟨2, 2, 2⟩ ⟨3, 3, 3⟩ false,
         NNModule.batchNorm3d 64 1 0, NNModule.relu]

/-- The `downsample` computed at the top of `VideoResNet._make_layer`
(lines 192–200): `None` unless `stride != 1 or self.inplanes != planes *
block.expansion`, in which case it is `Sequential(Conv3d(self.inplanes,
planes * block.expansion, kernel_size=1, stride=conv_builder.
get_downsample_stride(stride), bias=False), BatchNorm3d(planes *
block.expansion))` (default padding 0). -/
def downsampleFor (block : BlockKind) (conv_builder : ConvBuilder)
    (inplanes planes stride : Nat) : NNModule :=
  if stride ≠ 1 ∨ inplanes ≠ planes * block.expansion then
    seqOf [NNModule.conv3d inplanes (planes * block.expansion) ⟨1, 1, 1⟩
             (conv_builder.get_downsample_stride stride) ⟨0, 0, 0⟩ false,
           NNModule.batchNorm3d (planes * block.expansion) 1 0]
  else NNModule.pyNone

/-- The loop `for i in range(1, blocks)` of `_make_layer`: after
`self.inplanes` has been updated, each remaining block is built as
`block(self.inplanes, planes, conv_builder)`, i.e. with the default
stride 1 and downsample `None`.  The argument is the iteration count
`blocks - 1`. -/
def restBlocks (block : BlockKind) (conv_builder : ConvBuilder)
    (inplanes planes : Nat) : Nat → Option (List NNModule)
  | 0 => some []
  | k + 1 => do
      let b ← block.construct inplanes planes conv_builder 1 NNModule.pyNone
      let bs ← restBlocks block conv_builder inplanes planes k
      some (b :: bs)

/-- `VideoResNet._make_layer(block, conv_builder, planes, blocks, stride)`:
builds the optional downsample, the first block with the requested stride
and that downsample, updates the running `self.inplanes` to
`planes * block.expansion`, builds the `blocks - 1` remaining blocks at
stride 1 with no downsample, and returns `Sequential(*layers)`.  The
mutated `self.inplanes` is threaded explicitly: the function takes its
value before the call and returns its value after. -/
def make_layer (block : BlockKind) (conv_builder : ConvBuilder)
    (inplanes planes blocks stride : Nat) : Option (NNModule × Nat) := do
  let downsample := downsampleFor block conv_builder inplanes planes stride
  let first ← block.construct inplanes planes conv_builder stride downsample
  let inplanes2 := planes * block.expansion
  let rest ← restBlocks block conv_builder inplanes2 planes (blocks - 1)
  some (seqOf (first :: rest), inplanes2)

/-- `VideoResNet._initialize_weights` (lines 210–222), restricted to what
it does to the modelled state: every `nn.Conv3d` has its weight redrawn
from a He-normal distribution (numeric values not modelled; its bias, were
one present, would be zeroed, but every convolution here has `bias=False`),
and every `nn.BatchNorm3d` gets scale 1 and shift 0 via `nn.init.constant_`.
No `nn.Linear` exists here because the classification head is commented
out.  The traversal covers every submodule, as `self.modules()` does. -/
def NNModule.initializeWeights : NNModule → NNModule
  | NNModule.pyNone => NNModule.pyNone
  | NNModule.conv3d ic oc k s p bi => NNModule.conv3d ic oc k s p bi
  | NNModule.batchNorm3d nf _ _ => NNModule.batchNorm3d nf 1 0
  | NNModule.relu => NNModule.relu
  | NNModule.adaptiveAvgPool3d o => NNModule.adaptiveAvgPool3d o
  | NNModule.seqNil => NNModule.seqNil
  | NNModule.seqCons m r => NNModule.seqCons m.initializeWeights r.initializeWeights
  | NNModule.basicBlock c1 c2 ds =>
      NNModule.basicBlock c1.initializeWeights c2.initializeWeights ds.initializeWeights
  | NNModule.bottleneckBlock c1 c2 c3 ds =>
      NNModule.bottleneckBlock c1.initializeWeights c2.initializeWeights
        c3.initializeWeights ds.initializeWeights

/-- The attribute names `Bottleneck.__init__` stores on the object:
`conv1`, `conv2`, `conv3`, `relu`, `downsample`, `stride`.  In particular
there is no attribute `bn3`: the block's final batch normalization lives
inside the `conv3` Sequential. -/
def bottleneckAttrs : List String :=
  ["conv1", "conv2", "conv3", "relu", "downsample", "stride"]

/-- The `zero_init_residual` loop of `VideoResNet.__init__` (lines
171–174): for every `Bottleneck` among `self.modules()` it executes
`nn.init.constant_(m.bn3.weight, 0)`.  Reading `m.bn3` raises
`AttributeError` because `"bn3"` is not among `bottleneckAttrs` (the
block's last BatchNorm is inside its `conv3` Sequential, stored under
`conv3`), so the traversal fails (returns `none`) as soon as it meets a
`bottleneckBlock`, and leaves every other module unchanged. -/
def NNModule.zeroInitResidualAll : NNModule → Option NNModule
  | NNModule.pyNone => some NNModule.pyNone
  | NNModule.conv3d ic oc k s p bi => some (NNModule.conv3d ic oc k s p bi)
  | NNModule.batchNorm3d nf w b => some (NNModule.batchNorm3d nf w b)
  | NNModule.relu => some NNModule.relu
  | NNModule.adaptiveAvgPool3d o => some (NNModule.adaptiveAvgPool3d o)
  | NNModule.seqNil => some NNModule.seqNil
  | NNModule.seqCons m r => do
      let m2 ← m.zeroInitResidualAll
      let r2 ← r.zeroInitResidualAll
      some (NNModule.seqCons m2 r2)
  | NNModule.basicBlock c1 c2 ds => do
      let c1' ← c1.zeroInitResidualAll
      let c2' ← c2.zeroInitResidualAll
      let ds' ← ds.zeroInitResidualAll
      some (NNModule.basicBlock c1' c2' ds')
  | NNModule.bottleneckBlock _ _ _ _ => none

/-- The structural state of a constructed `VideoResNet`: the submodules
its `__init__` stores.  The field `fc` of the reference design is absent
because `self.fc = nn.Linear(...)` is commented out in this source. -/
structure VideoResNet where
  stem : NNModule
  layer1 : NNModule
  layer2 : NNModule
  layer3 : NNModule
  layer4 : NNModule
  avgpool : NNModule
deriving DecidableEq

/-- One `self.layerK = self._make_layer(block, conv_makers[idx], planes,
layers[idx], stride=...)` line of `VideoResNet.__init__`: the list
accesses fail (Python `IndexError`) when a list is shorter than 4, as in
Python. -/
def makeStage (block : BlockKind) (conv_makers : List ConvBuilder)
    (layers : List Nat) (idx inplanes planes stride : Nat) :
    Option (NNModule × Nat) :=
  (conv_makers.get? idx).bind fun cb =>
  (layers.get? idx).bind fun n =>
  make_layer block cb inplanes planes n stride

/-- The `zero_init_residual` loop applied to every submodule of the
network, as `self.modules()` iterates over all of them. -/
def zeroInitNet (net : VideoResNet) : Option VideoResNet :=
  (net.stem.zeroInitResidualAll).bind fun st =>
  (net.layer1.zeroInitResidualAll).bind fun l1 =>
  (net.layer2.zeroInitResidualAll).bind fun l2 =>
  (net.layer3.zeroInitResidualAll).bind fun l3 =>
  (net.layer4.zeroInitResidualAll).bind fun l4 =>
  (net.avgpool.zeroInitResidualAll).bind fun ap =>
  some ⟨st, l1, l2, l3, l4, ap⟩

/-- `VideoResNet.__init__(block, conv_makers, layers, stem, num_classes,
zero_init_residual)`: starts the running channel count at 64, builds the
stem, the four stages with `(planes, stride) = (64,1), (128,2), (192,2),
(256,2)` and block counts `layers[0..3]`, the
`AdaptiveAvgPool3d((1,1,1))`, runs `_initialize_weights` over every
submodule, and finally, when `zero_init_residual` is set, the `m.bn3`
zeroing loop (which raises on any `Bottleneck`).  `num_classes` is only
used by the commented-out classification head.  The running
`self.inplanes` is threaded through the stage results. -/
def VideoResNet.make (block : BlockKind) (conv_makers : List ConvBuilder)
    (layers : List Nat) (stem : Unit → NNModule) (num_classes : Nat)
    (zero_init_residual : Bool) : Option VideoResNet :=
  (makeStage block conv_makers layers 0 64 64 1).bind fun p1 =>
  (makeStage block conv_makers layers 1 p1.2 128 2).bind fun p2 =>
  (makeStage block conv_makers layers 2 p2.2 192 2).bind fun p3 =>
  (makeStage block conv_makers layers 3 p3.2 256 2).bind fun p4 =>
  let net : VideoResNet :=
    ⟨(stem ()).initializeWeights, p1.1.initializeWeights,
     p2.1.initializeWeights, p3.1.initializeWeights, p4.1.initializeWeights,
     (NNModule.adaptiveAvgPool3d ⟨1, 1, 1⟩).initializeWeights⟩
  if zero_init_residual then zeroInitNet net else some net

/-- `_video_resnet(arch, pretrained, progress, **kwargs)`: simply
`model = VideoResNet(**kwargs); return model` — `arch`, `pretrained` and
`progress` are never read, and no pretrained weights are loaded. -/
def _video_resnet (arch : String) (pretrained progress : Bool)
    (block : BlockKind) (conv_makers : List ConvBuilder) (layers : List Nat)
    (stem : Unit → NNModule) (num_classes : Nat) (zero_init_residual : Bool) :
    Option VideoResNet :=
  VideoResNet.make block conv_makers layers stem num_classes zero_init_residual

/-- `r3d_18(pretrained, progress, **kwargs)`: delegates to `_video_resnet`
with `block=BasicBlock`, `conv_makers=[Conv3DSimple] * 4`,
`layers=[2, 2, 2, 2]`, `stem=BasicStem`.  The keyword arguments the
caller may pass through `**kwargs` (`num_classes`, default 2, and
`zero_init_residual`, default `False`) are made explicit. -/
def r3d_18 (pretrained progress : Bool) (num_classes : Nat)
    (zero_init_residual : Bool) : Option VideoResNet :=
  _video_resnet "r3d_18" pretrained progress BlockKind.basic
    [Conv3DSimple, Conv3DSimple, Conv3DSimple, Conv3DSimple]
    [2, 2, 2, 2] (fun _ => BasicStem.make) num_classes zero_init_residual

/-- An interpretation of the layer primitives over a tensor type `T`.
Each primitive may fail (shape errors, etc.), as the external framework
raises runtime exceptions; `add` interprets the in-place `out += residual`.
The forward claims are proved for every interpretation, and the shape
claims instantiate `T := Shape` with PyTorch's shape rules. -/
structure PrimSem (T : Type) where
  conv3d : Nat → Nat → Dim3 → Dim3 → Dim3 → Bool → T → Option T
  batchNorm3d : Nat → Int → Int → T → Option T
  relu : T → Option T
  adaptiveAvgPool3d : Dim3 → T → Option T
  add : T → T → Option T

/-- The forward pass of a module tree under an interpretation `S`.
`nn.Sequential` applies its children in order.  `BasicBlock.forward`
(lines 70–81) is `residual = x; out = conv1(x); out = conv2(out);
if downsample is not None: residual = downsample(x); out += residual;
out = relu(out)`, and `Bottleneck.forward` (lines 114–127) is the same
with a third convolution stage.  Calling `None` as a module is an error
(`pyNone` only ever stands for an absent downsample, which `basicBlock` /
`bottleneckBlock` test for before applying). -/
def NNModule.run {T : Type} (S : PrimSem T) : NNModule → T → Option T
  | NNModule.pyNone, _ => none
  | NNModule.conv3d ic oc k s p bi, x => S.conv3d ic oc k s p bi x
  | NNModule.batchNorm3d nf w b, x => S.batchNorm3d nf w b x
  | NNModule.relu, x => S.relu x
  | NNModule.adaptiveAvgPool3d o, x => S.adaptiveAvgPool3d o x
  | NNModule.seqNil, x => some x
  | NNModule.seqCons m rest, x => (NNModule.run S m x).bind (NNModule.run S rest)
  | NNModule.basicBlock c1 c2 ds, x =>
      (NNModule.run S c1 x).bind fun out1 =>
      (NNModule.run S c2 out1).bind fun out2 =>
      (if ds = NNModule.pyNone then some x else NNModule.run S ds x).bind fun residual =>
      (S.add out2 residual).bind fun out3 =>
      S.relu out3
  | NNModule.bottleneckBlock c1 c2 c3 ds, x =>
      (NNModule.run S c1 x).bind fun out1 =>
      (NNModule.run S c2 out1).bind fun out2 =>
      (NNModule.run S c3 out2).bind fun out3 =>
      (if ds = NNModule.pyNone then some x else NNModule.run S ds x).bind fun residual =>
      (S.add out3 residual).bind fun out4 =>
      S.relu out4

/-- PyTorch's output length of one convolution axis: with input length
`n`, kernel `k`, stride `s`, padding `p` (dilation 1), the output length
is `(n + 2p - k) / s + 1` rounded down.  The framework raises when the
stride is not positive or the padded input is smaller than the kernel. -/
def convOut1 (n k s p : Nat) : Option Nat :=
  if s = 0 then none
  else if n + 2 * p < k then none
  else some ((n + 2 * p - k) / s + 1)

/-- Shape rule of `nn.Conv3d`: the input channel count must equal the
declared one; each spatial axis is convolved independently; the bias does
not affect the shape. -/
def shapeConv (inChannels outChannels : Nat) (k s p : Dim3) (_hasBias : Bool)
    (sh : Shape) : Option Shape :=
  if sh.c = inChannels then
    match convOut1 sh.d k.d s.d p.d, convOut1 sh.h k.h s.h p.h,
        convOut1 sh.w k.w s.w p.w with
    | some d2, some h2, some w2 => some ⟨sh.n, outChannels, d2, h2, w2⟩
    | _, _, _ => none
  else none

/-- Shape rule of `nn.BatchNorm3d`: the channel count must match
`numFeatures`; the shape is preserved. -/
def shapeBN (numFeatures : Nat) (_weight _bias : Int) (sh : Shape) : Option Shape :=
  if sh.c = numFeatures then some sh else none

/-- Shape rule of `nn.ReLU`: elementwise, shape preserved. -/
def shapeRelu (sh : Shape) : Option Shape := some sh

/-- Shape rule of `nn.AdaptiveAvgPool3d`: requires non-empty spatial
extents and produces the requested output extents. -/
def shapePool (o : Dim3) (sh : Shape) : Option Shape :=
  if sh.d = 0 ∨ sh.h = 0 ∨ sh.w = 0 then none
  else some ⟨sh.n, sh.c, o.d, o.h, o.w⟩

/-- Shape rule of the in-place `out += residual`: this network only ever
adds equal-shaped tensors (broadcasting is never exercised), so unequal
shapes are an error. -/
def shapeAdd (a b : Shape) : Option Shape := if a = b then some a else none

/-- The shape interpretation of the layer primitives. -/
def shapeSem : PrimSem Shape := ⟨shapeConv, shapeBN, shapeRelu, shapePool, shapeAdd⟩

/-- `VideoResNet.forward` (lines 176–189) at the shape level: strictly
sequential application of stem, layer1..layer4 and avgpool, then
`x.flatten(1)`, which turns `(n, c, d, h, w)` into `(n, c*d*h*w)`.  The
classification projection `self.fc` is commented out in the source, so
the flattened embedding is returned directly. -/
def VideoResNet.forward (net : VideoResNet) (x : Shape) : Option (Nat × Nat) :=
  (net.stem.run shapeSem x).bind fun x1 =>
  (net.layer1.run shapeSem x1).bind fun x2 =>
  (net.layer2.run shapeSem x2).bind fun x3 =>
  (net.layer3.run shapeSem x3).bind fun x4 =>
  (net.layer4.run shapeSem x4).bind fun x5 =>
  (net.avgpool.run shapeSem x5).bind fun x6 =>
  some (x6.n, x6.c * x6.d * x6.h * x6.w)

/-- The `(weight, bias)` constant pairs of every `nn.BatchNorm3d` in a
module tree, in traversal order. -/
def NNModule.bnParams : NNModule → List (Int × Int)
  | NNModule.batchNorm3d _ w b => [(w, b)]
  | NNModule.seqCons m r => m.bnParams ++ r.bnParams
  | NNModule.basicBlock c1 c2 ds => c1.bnParams ++ c2.bnParams ++ ds.bnParams
  | NNModule.bottleneckBlock c1 c2 c3 ds =>
      c1.bnParams ++ c2.bnParams ++ c3.bnParams ++ ds.bnParams
  | _ => []

/-- The `(weight, bias)` constant pairs of every `nn.BatchNorm3d` in a
constructed network. -/
def VideoResNet.bnParams (net : VideoResNet) : List (Int × Int) :=
  net.stem.bnParams ++ net.layer1.bnParams ++ net.layer2.bnParams ++
  net.layer3.bnParams ++ net.layer4.bnParams ++ net.avgpool.bnParams

/-- The `downsample` attribute of a residual block (`pyNone` when absent,
and for non-block modules, which have no such attribute). -/
def NNModule.downsampleOf : NNModule → NNModule
  | NNModule.basicBlock _ _ ds => ds
  | NNModule.bottleneckBlock _ _ _ ds => ds
  | _ => NNModule.pyNone

/-- A stride-1 `BasicBlock` at channel width `c` with no downsample, the
form every non-first block of an `r3d_18` stage takes (and both blocks of
stage 1). -/
def plainBlock (c : Nat) : NNModule :=
  NNModule.basicBlock
    (seqOf [NNModule.conv3d c c ⟨3, 3, 3⟩ ⟨1, 1, 1⟩ ⟨1, 1, 1⟩ false,
            NNModule.batchNorm3d c 1 0, NNModule.relu])
    (seqOf [NNModule.conv3d c c ⟨3, 3, 3⟩ ⟨1, 1, 1⟩ ⟨1, 1, 1⟩ false,
            NNModule.batchNorm3d c 1 0])
    NNModule.pyNone

/-- The stride-2 first `BasicBlock` of an `r3d_18` stage, from `cin` to
`cout` channels, with its 1×1×1 stride-2 downsample path. -/
def downBlock (cin cout : Nat) : NNModule :=
  NNModule.basicBlock
    (seqOf [NNModule.conv3d cin cout ⟨3, 3, 3⟩ ⟨2, 2, 2⟩ ⟨1, 1, 1⟩ false,
            NNModule.batchNorm3d cout 1 0, NNModule.relu])
    (seqOf [NNModule.conv3d cout cout ⟨3, 3, 3⟩ ⟨1, 1, 1⟩ ⟨1, 1, 1⟩ false,
            NNModule.batchNorm3d cout 1 0])
    (seqOf [NNModule.conv3d cin cout ⟨1, 1, 1⟩ ⟨2, 2, 2⟩ ⟨0, 0, 0⟩ false,
            NNModule.batchNorm3d cout 1 0])

/-- The network `r3d_18()` constructs, written out: the `BasicStem`, four
stages of two `BasicBlock`s each at widths 64, 128, 192, 256 (stage 1 at
stride 1 without downsample paths, stages 2–4 opening with a stride-2
block and downsample), and the global average pool. -/
def r3d18Net : VideoResNet :=
  ⟨BasicStem.make,
   seqOf [plainBlock 64, plainBlock 64],
   seqOf [downBlock 64 128, plainBlock 128],
   seqOf [downBlock 128 192, plainBlock 192],
   seqOf [downBlock 192 256, plainBlock 256],
   NNModule.adaptiveAvgPool3d ⟨1, 1, 1⟩⟩

/-- The effect of any of this network's stride-2 convolutions on one
spatial axis: length `x` becomes `(x - 1) / 2 + 1`.  (For the 7×7×7
padding-3 stem convolution, `(x + 6 - 7) / 2 + 1`; for the 3×3×3
padding-1 stage convolutions, `(x + 2 - 3) / 2 + 1`; for the 1×1×1
padding-0 downsample convolutions, `(x - 1) / 2 + 1`: all equal for
`x ≥ 1`.) -/
def halve (x : Nat) : Nat := (x - 1) / 2 + 1

lemma one_le_halve (x : Nat) : 1 ≤ halve x := Nat.le_add_left 1 _

lemma convOut1_stem (x : Nat) (hx : 1 ≤ x) : convOut1 x 7 2 3 = some (halve x) := by
  have h1 : ¬ (x + 2 * 3 < 7) := by omega
  have h2 : x + 2 * 3 - 7 = x - 1 := by omega
  simp [convOut1, h1, h2, halve]

lemma convOut1_k3s1 (x : Nat) (hx : 1 ≤ x) : convOut1 x 3 1 1 = some x := by
  have h1 : ¬ (x + 2 * 1 < 3) := by omega
  simp [convOut1, h1]
  omega

lemma convOut1_k3s2 (x : Nat) (hx : 1 ≤ x) : convOut1 x 3 2 1 = some (halve x) := by
  have h1 : ¬ (x + 2 * 1 < 3) := by omega
  have h2 : x + 2 * 1 - 3 = x - 1 := by omega
  simp [convOut1, h1, h2, halve]

lemma convOut1_k1s2 (x : Nat) (hx : 1 ≤ x) : convOut1 x 1 2 0 = some (halve x) := by
  have h1 : ¬ (x + 2 * 0 < 1) := by omega
  have h2 : x + 2 * 0 - 1 = x - 1 := by omega
  simp [convOut1, h1, h2, halve]
  omega

lemma run_stem_shape (n d h w : Nat) (hd : 1 ≤ d) (hh : 1 ≤ h) (hw : 1 ≤ w) :
    BasicStem.make.run shapeSem ⟨n, 1, d, h, w⟩ =
      some ⟨n, 64, halve d, halve h, halve w⟩ := by
  simp [BasicStem.make, seqOf, NNModule.run, shapeSem, shapeConv, shapeBN, shapeRelu,
        convOut1_stem _ hd, convOut1_stem _ hh, convOut1_stem _ hw]

lemma run_plainBlock (c n a b e : Nat) (ha : 1 ≤ a) (hb : 1 ≤ b) (he : 1 ≤ e) :
    (plainBlock c).run shapeSem ⟨n, c, a, b, e⟩ = some ⟨n, c, a, b, e⟩ := by
  simp [plainBlock, seqOf, NNModule.run, shapeSem, shapeConv, shapeBN, shapeRelu, shapeAdd,
        convOut1_k3s1 _ ha, convOut1_k3s1 _ hb, convOut1_k3s1 _ he]

lemma run_downBlock (cin cout n a b e : Nat) (ha : 1 ≤ a) (hb : 1 ≤ b) (he : 1 ≤ e) :
    (downBlock cin cout).run shapeSem ⟨n, cin, a, b, e⟩ =
      some ⟨n, cout, halve a, halve b, halve e⟩ := by
  simp [downBlock, seqOf, NNModule.run, shapeSem, shapeConv, shapeBN, shapeRelu, shapeAdd,
        convOut1_k3s2 _ ha, convOut1_k3s2 _ hb, convOut1_k3s2 _ he,
        convOut1_k1s2 _ ha, convOut1_k1s2 _ hb, convOut1_k1s2 _ he,
        convOut1_k3s1 _ (one_le_halve a), convOut1_k3s1 _ (one_le_halve b),
        convOut1_k3s1 _ (one_le_halve e)]

lemma run_avgpool (n c a b e : Nat) (ha : 1 ≤ a) (hb : 1 ≤ b) (he : 1 ≤ e) :
    (NNModule.adaptiveAvgPool3d ⟨1, 1, 1⟩).run shapeSem ⟨n, c, a, b, e⟩ =
      some ⟨n, c, 1, 1, 1⟩ := by
  have h1 : ¬ (a = 0 ∨ b = 0 ∨ e = 0) := by omega
  simp [NNModule.run, shapeSem, shapePool, h1]

lemma run_seq2 {T : Type} (S : PrimSem T) (m1 m2 : NNModule) (x : T) :
    (seqOf [m1, m2]).run S x = (m1.run S x).bind fun y => m2.run S y := by
  show ((m1.run S x).bind fun y => (m2.run S y).bind some) = _
  cases m1.run S x with
  | none => rfl
  | some y => simp [Option.bind_some]

/-- Claim C1: the network `r3d_18` builds (BasicBlock, Conv3DSimple,
layers `[2,2,2,2]`, BasicStem) runs its forward pass as the strictly
sequential composition stem → layer1 → layer2 → layer3 → layer4 →
adaptive average-pool to `(1,1,1)` → flatten from dimension 1, with no
final classification projection (see `VideoResNet.forward`), and on every
input of shape `(N, 1, D, H, W)` with `N ≥ 1` and positive spatial
extents — in particular any input large enough to survive all the
stride-2 reductions — it produces shape `(N, 256)`.  (The convolutions'
padding keeps every positive extent positive, so `D, H, W ≥ 1` already
suffices.) -/
theorem r3d_18_forward_shape (pretrained progress : Bool) (N D H W : Nat)
    (hN : 1 ≤ N) (hD : 1 ≤ D) (hH : 1 ≤ H) (hW : 1 ≤ W) :
    ∃ net, r3d_18 pretrained progress 2 false = some net ∧
      net.forward ⟨N, 1, D, H, W⟩ = some (N, 256) := by
  refine ⟨r3d18Net, rfl, ?_⟩
  have e1 := run_stem_shape N D H W hD hH hW
  have l1a := run_plainBlock 64 N (halve D) (halve H) (halve W)
    (one_le_halve D) (one_le_halve H) (one_le_halve W)
  have l2a := run_downBlock 64 128 N (halve D) (halve H) (halve W)
    (one_le_halve D) (one_le_halve H) (one_le_halve W)
  have l2b := run_plainBlock 128 N (halve (halve D)) (halve (halve H)) (halve (halve W))
    (one_le_halve _) (one_le_halve _) (one_le_halve _)
  have l3a := run_downBlock 128 192 N (halve (halve D)) (halve (halve H)) (halve (halve W))
    (one_le_halve _) (one_le_halve _) (one_le_halve _)
  have l3b := run_plainBlock 192 N (halve (halve (halve D))) (halve (halve (halve H)))
    (halve (halve (halve W))) (one_le_halve _) (one_le_halve _) (one_le_halve _)
  have l4a := run_downBlock 192 256 N (halve (halve (halve D))) (halve (halve (halve H)))
    (halve (halve (halve W))) (one_le_halve _) (one_le_halve _) (one_le_halve _)
  have l4b := run_plainBlock 256 N (halve (halve (halve (halve D))))
    (halve (halve (halve (halve H)))) (halve (halve (halve (halve W))))
    (one_le_halve _) (one_le_halve _) (one_le_halve _)
  have ep := run_avgpool N 256 (halve (halve (halve (halve D))))
    (halve (halve (halve (halve H)))) (halve (halve (halve (halve W))))
    (one_le_halve _) (one_le_halve _) (one_le_halve _)
  simp only [VideoResNet.forward, r3d18Net, run_seq2, e1, l1a, l2a, l2b,
    l3a, l3b, l4a, l4b, ep, Option.some_bind]

/-- Witness for C1 at the concrete input shape `(2, 1, 32, 32, 32)`. -/
theorem r3d_18_forward_shape_witness :
    ∃ net, r3d_18 false true 2 false = some net ∧
      net.forward ⟨2, 1, 32, 32, 32⟩ = some (2, 256) :=
  r3d_18_forward_shape false true 2 32 32 32 (by decide) (by decide)
    (by decide) (by decide)

/-- Claim C5: the mid-plane value computed at block construction equals
`(in_planes * out_planes * 27) / (in_planes * 9 + 3 * out_planes)` with
truncating integer division whenever the divisor is non-zero (the valid
inputs; the divisor-zero case is Claim C10).  Non-negativity and
call-to-call determinism are inherent: `midplanesD` is a pure function on
`Nat`. -/
theorem midplanes_formula (in_planes out_planes : Nat)
    (h : in_planes * 9 + 3 * out_planes ≠ 0) :
    midplanesD in_planes out_planes =
      some ((in_planes * out_planes * 27) / (in_planes * 9 + 3 * out_planes)) := by
  have e1 : in_planes * out_planes * 3 * 3 * 3 = in_planes * out_planes * 27 := by ring
  have e2 : in_planes * 3 * 3 + 3 * out_planes = in_planes * 9 + 3 * out_planes := by ring
  unfold midplanesD pyDiv
  rw [e1, e2, if_neg h]

/-- Witness for C5 at `(64, 64)`: the formula gives `110592 / 768 = 144`. -/
theorem midplanes_formula_witness :
    midplanesD 64 64 = some ((64 * 64 * 27) / (64 * 9 + 3 * 64)) :=
  midplanes_formula 64 64 (by decide)

/-- Claim C10: the mid-plane divisor `inplanes * 3 * 3 + 3 * planes` is
zero exactly when both arguments are zero; whenever `inplanes > 0` or
`planes > 0`, constructing a `BasicBlock` or a `Bottleneck` succeeds (no
division by zero), and for `inplanes = planes = 0` both constructors fail
with `ZeroDivisionError` (modelled as `none`). -/
theorem midplanes_zero_divisor (inplanes planes : Nat) (cb : ConvBuilder)
    (stride : Nat) (ds : NNModule) :
    (inplanes * 3 * 3 + 3 * planes = 0 ↔ inplanes = 0 ∧ planes = 0)
  ∧ (0 < inplanes ∨ 0 < planes →
      (BasicBlock.make inplanes planes cb stride ds).isSome = true ∧
      (Bottleneck.make inplanes planes cb stride ds).isSome = true)
  ∧ BasicBlock.make 0 0 cb stride ds = none
  ∧ Bottleneck.make 0 0 cb stride ds = none := by
  refine ⟨by omega, ?_, ?_, ?_⟩
  · intro h
    have hne : ¬ (inplanes * 3 * 3 + 3 * planes = 0) := by omega
    constructor
    · simp [BasicBlock.make, midplanesD, pyDiv, hne]
    · simp [Bottleneck.make, midplanesD, pyDiv, hne]
  · simp [BasicBlock.make, midplanesD, pyDiv]
  · simp [Bottleneck.make, midplanesD, pyDiv]

/-- Claim C7: the expansion factor is a fixed class constant per block
variant — 1 for `BasicBlock`, 4 for `Bottleneck` — and `Bottleneck`'s
third stage is a 1×1×1 convolution (default stride 1, padding 0, no
bias) followed by batch normalization with no activation, expanding the
channel count from `planes` to `planes * 4`. -/
theorem expansion_constants :
    BasicBlock.expansion = 1 ∧ Bottleneck.expansion = 4
  ∧ BlockKind.basic.expansion = 1 ∧ BlockKind.bottleneck.expansion = 4
  ∧ ∀ (inplanes planes : Nat) (cb : ConvBuilder) (stride : Nat)
      (ds : NNModule) (mid : Nat),
      midplanesD inplanes planes = some mid →
      Bottleneck.make inplanes planes cb stride ds =
        some (NNModule.bottleneckBlock
          (seqOf [NNModule.conv3d inplanes planes ⟨1, 1, 1⟩ ⟨1, 1, 1⟩ ⟨0, 0, 0⟩ false,
                  NNModule.batchNorm3d planes 1 0, NNModule.relu])
          (seqOf [cb.make planes planes mid stride,
                  NNModule.batchNorm3d planes 1 0, NNModule.relu])
          (seqOf [NNModule.conv3d planes (planes * 4) ⟨1, 1, 1⟩ ⟨1, 1, 1⟩ ⟨0, 0, 0⟩ false,
                  NNModule.batchNorm3d (planes * 4) 1 0])
          ds) := by
  refine ⟨rfl, rfl, rfl, rfl, ?_⟩
  intro inplanes planes cb stride ds mid hmid
  simp [Bottleneck.make, hmid, Bottleneck.expansion]

/-- Claim C8: the stem is exactly one 3D convolution with kernel
`(7,7,7)`, stride `(2,2,2)`, padding `(3,3,3)`, no bias, mapping 1 input
channel to 64 output channels, followed by a batch normalization and an
activation in that order; on any input `(n, 1, d, h, w)` with positive
spatial extents it produces `(n, 64, (d-1)/2+1, (h-1)/2+1, (w-1)/2+1)`. -/
theorem stem_structure (n d h w : Nat) (hd : 1 ≤ d) (hh : 1 ≤ h) (hw : 1 ≤ w) :
    BasicStem.make =
      seqOf [NNModule.conv3d 1 64 ⟨7, 7, 7⟩ ⟨2, 2, 2⟩ ⟨3, 3, 3⟩ false,
             NNModule.batchNorm3d 64 1 0, NNModule.relu]
  ∧ BasicStem.make.run shapeSem ⟨n, 1, d, h, w⟩ =
      some ⟨n, 64, halve d, halve h, halve w⟩ :=
  ⟨rfl, run_stem_shape n d h w hd hh hw⟩

/-- Witness for C8 at a `(1, 1, 7, 7, 7)` input: the stem halves each
spatial extent to 4. -/
theorem stem_structure_witness :
    BasicStem.make =
      seqOf [NNModule.conv3d 1 64 ⟨7, 7, 7⟩ ⟨2, 2, 2⟩ ⟨3, 3, 3⟩ false,
             NNModule.batchNorm3d 64 1 0, NNModule.relu]
  ∧ BasicStem.make.run shapeSem ⟨1, 1, 7, 7, 7⟩ = some ⟨1, 64, 4, 4, 4⟩ :=
  stem_structure 1 7 7 7 (by decide) (by decide) (by decide)

/-- Claim C9: the `pretrained` and `progress` arguments of `r3d_18` and
`_video_resnet` (and the `arch` string) are dead: `_video_resnet` is the
plain `VideoResNet` constructor call whatever they are, so the same
remaining arguments give the same network and no pretrained weights are
ever loaded. -/
theorem pretrained_progress_unused (arch : String) (p1 q1 p2 q2 : Bool)
    (block : BlockKind) (conv_makers : List ConvBuilder) (layers : List Nat)
    (stem : Unit → NNModule) (num_classes : Nat) (zero_init_residual : Bool) :
    _video_resnet arch p1 q1 block conv_makers layers stem num_classes zero_init_residual
      = VideoResNet.make block conv_makers layers stem num_classes zero_init_residual
  ∧ r3d_18 p1 q1 num_classes zero_init_residual
      = r3d_18 p2 q2 num_classes zero_init_residual :=
  ⟨rfl, rfl⟩

lemma midplanesD_some (inplanes planes : Nat) (hp : 0 < planes) :
    ∃ mid, midplanesD inplanes planes = some mid := by
  have hne : ¬ (inplanes * 3 * 3 + 3 * planes = 0) := by omega
  exact ⟨inplanes * planes * 3 * 3 * 3 / (inplanes * 3 * 3 + 3 * planes),
    by simp [midplanesD, pyDiv, hne]⟩

lemma construct_some (blk : BlockKind) (inplanes planes : Nat) (cb : ConvBuilder)
    (stride : Nat) (ds : NNModule) (hp : 0 < planes) :
    ∃ m, blk.construct inplanes planes cb stride ds = some m ∧ m.downsampleOf = ds := by
  obtain ⟨mid, hmid⟩ := midplanesD_some inplanes planes hp
  cases blk with
  | basic =>
      refine ⟨NNModule.basicBlock
        (seqOf [cb.make inplanes planes mid stride,
                NNModule.batchNorm3d planes 1 0, NNModule.relu])
        (seqOf [cb.make planes planes mid 1, NNModule.batchNorm3d planes 1 0])
        ds, ?_, rfl⟩
      simp [BlockKind.construct, BasicBlock.make, hmid]
  | bottleneck =>
      refine ⟨NNModule.bottleneckBlock
        (seqOf [NNModule.conv3d inplanes planes ⟨1, 1, 1⟩ ⟨1, 1, 1⟩ ⟨0, 0, 0⟩ false,
                NNModule.batchNorm3d planes 1 0, NNModule.relu])
        (seqOf [cb.make planes planes mid stride,
                NNModule.batchNorm3d planes 1 0, NNModule.relu])
        (seqOf [NNModule.conv3d planes (planes * Bottleneck.expansion) ⟨1, 1, 1⟩
                  ⟨1, 1, 1⟩ ⟨0, 0, 0⟩ false,
                NNModule.batchNorm3d (planes * Bottleneck.expansion) 1 0])
        ds, ?_, rfl⟩
      simp [BlockKind.construct, Bottleneck.make, hmid]

lemma restBlocks_replicate (blk : BlockKind) (cb : ConvBuilder) (inplanes planes : Nat)
    (r : NNModule) (hr : blk.construct inplanes planes cb 1 NNModule.pyNone = some r)
    (k : Nat) :
    restBlocks blk cb inplanes planes k = some (List.replicate k r) := by
  induction k with
  | zero => rfl
  | succ n ih => simp [restBlocks, hr, ih, List.replicate_succ]

lemma make_layer_eq (blk : BlockKind) (cb : ConvBuilder)
    (inplanes planes blocks stride : Nat) (hp : 0 < planes) :
    ∃ first r,
      blk.construct inplanes planes cb stride
        (downsampleFor blk cb inplanes planes stride) = some first ∧
      first.downsampleOf = downsampleFor blk cb inplanes planes stride ∧
      blk.construct (planes * blk.expansion) planes cb 1 NNModule.pyNone = some r ∧
      make_layer blk cb inplanes planes blocks stride =
        some (seqOf (first :: List.replicate (blocks - 1) r), planes * blk.expansion) := by
  obtain ⟨first, hf, hdf⟩ := construct_some blk inplanes planes cb stride _ hp
  obtain ⟨r, hr, _⟩ :=
    construct_some blk (planes * blk.expansion) planes cb 1 NNModule.pyNone hp
  exact ⟨first, r, hf, hdf, hr, by
    simp [make_layer, hf, restBlocks_replicate blk cb _ planes r hr]⟩

/-- Claim C2: in `_make_layer` the first block of a stage carries a
downsample path exactly when the requested stride is not 1 or the running
input-channel count differs from `planes * block.expansion`; when
required, the path is a 1×1×1 convolution from the running input-channel
count to `planes * expansion` with stride
`conv_builder.get_downsample_stride(stride)` and no bias, followed by a
batch normalization; otherwise the first block's downsample is absent
(`None`).  For `Conv3DSimple`, `get_downsample_stride(s) = (s, s, s)`. -/
theorem make_layer_downsample (blk : BlockKind) (cb : ConvBuilder)
    (inplanes planes blocks stride : Nat) (hp : 0 < planes) :
    (∃ first rest n2, make_layer blk cb inplanes planes blocks stride =
        some (seqOf (first :: rest), n2) ∧
      ((stride ≠ 1 ∨ inplanes ≠ planes * blk.expansion) →
        first.downsampleOf = seqOf
          [NNModule.conv3d inplanes (planes * blk.expansion) ⟨1, 1, 1⟩
             (cb.get_downsample_stride stride) ⟨0, 0, 0⟩ false,
           NNModule.batchNorm3d (planes * blk.expansion) 1 0]) ∧
      (¬ (stride ≠ 1 ∨ inplanes ≠ planes * blk.expansion) →
        first.downsampleOf = NNModule.pyNone))
  ∧ Conv3DSimple.get_downsample_stride stride = ⟨stride, stride, stride⟩ := by
  obtain ⟨first, r, hf, hdf, hr, hml⟩ :=
    make_layer_eq blk cb inplanes planes blocks stride hp
  refine ⟨⟨first, _, _, hml, ?_, ?_⟩, rfl⟩
  · intro hcond
    rw [hdf, downsampleFor, if_pos hcond]
  · intro hcond
    rw [hdf, downsampleFor, if_neg hcond]

/-- Witness for C2 at stage 2 of the `r3d_18` configuration
(`BasicBlock`, `Conv3DSimple`, running count 64, planes 128, 2 blocks,
stride 2), where the downsample condition holds. -/
theorem make_layer_downsample_witness :
    (∃ first rest n2, make_layer BlockKind.basic Conv3DSimple 64 128 2 2 =
        some (seqOf (first :: rest), n2) ∧
      ((2 ≠ 1 ∨ 64 ≠ 128 * BlockKind.basic.expansion) →
        first.downsampleOf = seqOf
          [NNModule.conv3d 64 (128 * BlockKind.basic.expansion) ⟨1, 1, 1⟩
             (Conv3DSimple.get_downsample_stride 2) ⟨0, 0, 0⟩ false,
           NNModule.batchNorm3d (128 * BlockKind.basic.expansion) 1 0]) ∧
      (¬ (2 ≠ 1 ∨ 64 ≠ 128 * BlockKind.basic.expansion) →
        first.downsampleOf = NNModule.pyNone))
  ∧ Conv3DSimple.get_downsample_stride 2 = ⟨2, 2, 2⟩ :=
  make_layer_downsample BlockKind.basic Conv3DSimple 64 128 2 2 (by decide)

/-- Claim C6: the assembler builds exactly four stages in order with
`(planes, stride) = (64,1), (128,2), (192,2), (256,2)` and two blocks per
stage (shown on the constructed `r3d_18` network), and in every stage the
first block receives the requested stride and the computed downsample,
the running input-channel count becomes `planes * expansion`, and each
remaining block is built at stride 1 with no downsample at that fixed
width (they are all the identical construction, hence
`List.replicate`). -/
theorem assembler_stages (p q : Bool) (nc : Nat) (blk : BlockKind) (cb : ConvBuilder)
    (inplanes planes blocks stride : Nat) (hp : 0 < planes) :
    (∃ net, r3d_18 p q nc false = some net ∧
      make_layer BlockKind.basic Conv3DSimple 64 64 2 1 = some (net.layer1, 64) ∧
      make_layer BlockKind.basic Conv3DSimple 64 128 2 2 = some (net.layer2, 128) ∧
      make_layer BlockKind.basic Conv3DSimple 128 192 2 2 = some (net.layer3, 192) ∧
      make_layer BlockKind.basic Conv3DSimple 192 256 2 2 = some (net.layer4, 256))
  ∧ (∃ first r,
      blk.construct inplanes planes cb stride
        (downsampleFor blk cb inplanes planes stride) = some first ∧
      blk.construct (planes * blk.expansion) planes cb 1 NNModule.pyNone = some r ∧
      make_layer blk cb inplanes planes blocks stride =
        some (seqOf (first :: List.replicate (blocks - 1) r), planes * blk.expansion)) := by
  constructor
  · exact ⟨r3d18Net, rfl, by decide, by decide, by decide, by decide⟩
  · obtain ⟨first, r, hf, _, hr, hml⟩ :=
      make_layer_eq blk cb inplanes planes blocks stride hp
    exact ⟨first, r, hf, hr, hml⟩

/-- Witness for C6 at stage 1 of the `r3d_18` configuration. -/
theorem assembler_stages_witness :
    (∃ net, r3d_18 false true 2 false = some net ∧
      make_layer BlockKind.basic Conv3DSimple 64 64 2 1 = some (net.layer1, 64) ∧
      make_layer BlockKind.basic Conv3DSimple 64 128 2 2 = some (net.layer2, 128) ∧
      make_layer BlockKind.basic Conv3DSimple 128 192 2 2 = some (net.layer3, 192) ∧
      make_layer BlockKind.basic Conv3DSimple 192 256 2 2 = some (net.layer4, 256))
  ∧ (∃ first r,
      BlockKind.basic.construct 64 64 Conv3DSimple 1
        (downsampleFor BlockKind.basic Conv3DSimple 64 64 1) = some first ∧
      BlockKind.basic.construct (64 * BlockKind.basic.expansion) 64 Conv3DSimple 1
        NNModule.pyNone = some r ∧
      make_layer BlockKind.basic Conv3DSimple 64 64 2 1 =
        some (seqOf (first :: List.replicate (2 - 1) r),
          64 * BlockKind.basic.expansion)) :=
  assembler_stages false true 2 BlockKind.basic Conv3DSimple 64 64 2 1 (by decide)

/-- Claim C4: `BasicBlock.make` stores
`conv1 = convolution(given stride) → normalize → activate` and
`conv2 = convolution(stride 1) → normalize` (no activation), and
`BasicBlock.forward` on any input `x`, under every interpretation `S` of
the primitives, is `activate(conv2(conv1(x)) + residual)` where the
residual is `downsample(x)` when a downsample was supplied at
construction and the raw input `x` otherwise. -/
theorem basicBlock_forward {T : Type} (S : PrimSem T) (x : T)
    (inplanes planes stride : Nat) (cb : ConvBuilder) (ds : NNModule) (mid : Nat)
    (hmid : midplanesD inplanes planes = some mid) :
    BasicBlock.make inplanes planes cb stride ds =
      some (NNModule.basicBlock
        (seqOf [cb.make inplanes planes mid stride,
                NNModule.batchNorm3d planes 1 0, NNModule.relu])
        (seqOf [cb.make planes planes mid 1, NNModule.batchNorm3d planes 1 0])
        ds)
  ∧ (NNModule.basicBlock
        (seqOf [cb.make inplanes planes mid stride,
                NNModule.batchNorm3d planes 1 0, NNModule.relu])
        (seqOf [cb.make planes planes mid 1, NNModule.batchNorm3d planes 1 0])
        ds).run S x =
      (((cb.make inplanes planes mid stride).run S x).bind fun a1 =>
       (S.batchNorm3d planes 1 0 a1).bind fun a2 =>
       (S.relu a2).bind fun a3 =>
       ((cb.make planes planes mid 1).run S a3).bind fun a4 =>
       (S.batchNorm3d planes 1 0 a4).bind fun out =>
       (if ds = NNModule.pyNone then some x else ds.run S x).bind fun residual =>
       (S.add out residual).bind fun y =>
       S.relu y) := by
  constructor
  · simp [BasicBlock.make, hmid]
  · simp only [NNModule.run, seqOf, Option.bind_assoc, Option.bind_some]

/-- Witness for C4: the first block of stage 1 of `r3d_18`
(`inplanes = planes = 64`, stride 1, no downsample, `midplanes = 144`)
under the shape interpretation at input `(1, 64, 4, 4, 4)`. -/
theorem basicBlock_forward_witness :
    BasicBlock.make 64 64 Conv3DSimple 1 NNModule.pyNone =
      some (NNModule.basicBlock
        (seqOf [Conv3DSimple.make 64 64 144 1,
                NNModule.batchNorm3d 64 1 0, NNModule.relu])
        (seqOf [Conv3DSimple.make 64 64 144 1, NNModule.batchNorm3d 64 1 0])
        NNModule.pyNone)
  ∧ (NNModule.basicBlock
        (seqOf [Conv3DSimple.make 64 64 144 1,
                NNModule.batchNorm3d 64 1 0, NNModule.relu])
        (seqOf [Conv3DSimple.make 64 64 144 1, NNModule.batchNorm3d 64 1 0])
        NNModule.pyNone).run shapeSem ⟨1, 64, 4, 4, 4⟩ =
      (((Conv3DSimple.make 64 64 144 1).run shapeSem ⟨1, 64, 4, 4, 4⟩).bind fun a1 =>
       (shapeSem.batchNorm3d 64 1 0 a1).bind fun a2 =>
       (shapeSem.relu a2).bind fun a3 =>
       ((Conv3DSimple.make 64 64 144 1).run shapeSem a3).bind fun a4 =>
       (shapeSem.batchNorm3d 64 1 0 a4).bind fun out =>
       (if NNModule.pyNone = NNModule.pyNone then some (⟨1, 64, 4, 4, 4⟩ : Shape)
        else NNModule.run shapeSem NNModule.pyNone ⟨1, 64, 4, 4, 4⟩).bind fun residual =>
       (shapeSem.add out residual).bind fun y =>
       shapeSem.relu y) :=
  basicBlock_forward shapeSem ⟨1, 64, 4, 4, 4⟩ 64 64 1 Conv3DSimple
    NNModule.pyNone 144 (by decide)

lemma init_bn_all_ones (m : NNModule) :
    ∀ p ∈ m.initializeWeights.bnParams, p = ((1 : Int), (0 : Int)) := by
  induction m with
  | pyNone => simp [NNModule.initializeWeights, NNModule.bnParams]
  | conv3d ic oc k s p bi => simp [NNModule.initializeWeights, NNModule.bnParams]
  | batchNorm3d nf w b => simp [NNModule.initializeWeights, NNModule.bnParams]
  | relu => simp [NNModule.initializeWeights, NNModule.bnParams]
  | adaptiveAvgPool3d o => simp [NNModule.initializeWeights, NNModule.bnParams]
  | seqNil => simp [NNModule.initializeWeights, NNModule.bnParams]
  | seqCons m r ihm ihr =>
      intro p hp
      simp [NNModule.initializeWeights, NNModule.bnParams] at hp
      rcases hp with h | h
      exacts [ihm p h, ihr p h]
  | basicBlock c1 c2 ds ih1 ih2 ih3 =>
      intro p hp
      simp [NNModule.initializeWeights, NNModule.bnParams] at hp
      rcases hp with h | h | h
      exacts [ih1 p h, ih2 p h, ih3 p h]
  | bottleneckBlock c1 c2 c3 ds ih1 ih2 ih3 ih4 =>
      intro p hp
      simp [NNModule.initializeWeights, NNModule.bnParams] at hp
      rcases hp with h | h | h | h
      exacts [ih1 p h, ih2 p h, ih3 p h, ih4 p h]

/-- Claim C3: after `_initialize_weights`, every 3D batch normalization
in any module tree — in particular all 20 of the constructed `r3d_18`
network — has scale 1 and shift 0.  The `zero_init_residual` option,
however, does NOT work for a Bottleneck-based network: the loop executes
`nn.init.constant_(m.bn3.weight, 0)` but `Bottleneck` defines no
attribute `bn3` (its final normalization lives inside the `conv3`
Sequential), so construction of a Bottleneck network with
`zero_init_residual=True` raises `AttributeError` (returns `none`),
while the identical construction without the option, and the Basic-block
`r3d_18` with the option (whose loop finds no Bottleneck), both
succeed. -/
theorem initialize_weights_and_zero_init_residual :
    (∀ m : NNModule, ∀ p ∈ m.initializeWeights.bnParams, p = ((1 : Int), (0 : Int)))
  ∧ ((r3d_18 false true 2 false).map (fun net => net.bnParams.length) = some 20)
  ∧ ((r3d_18 false true 2 false).map
      (fun net => net.bnParams.all (fun p => decide (p = (1, 0)))) = some true)
  ∧ VideoResNet.make BlockKind.bottleneck
      [Conv3DSimple, Conv3DSimple, Conv3DSimple, Conv3DSimple] [2, 2, 2, 2]
      (fun _ => BasicStem.make) 2 true = none
  ∧ (VideoResNet.make BlockKind.bottleneck
      [Conv3DSimple, Conv3DSimple, Conv3DSimple, Conv3DSimple] [2, 2, 2, 2]
      (fun _ => BasicStem.make) 2 false).isSome = true
  ∧ (r3d_18 false true 2 true).isSome = true :=
  ⟨init_bn_all_ones, by decide, by decide, by decide, by decide, by decide⟩
